import Mathlib

/-!
# Verification of the ETL data-pipeline core

A shallow embedding, in Lean 4, of the core of the Python ETL pipeline
(`src/etl_pipeline/extract/extract.py`, `src/etl_pipeline/transform/transform.py`,
`src/etl_scripts/load.py`, `src/etl_pipeline/main.py`), together with theorems
settling the behavioural claims about it.

Modelling conventions:
* pandas DataFrames are lists of records (`Row`, `EnrichedRow`); missing values
  (`NaN` / `None`) are `Option.none`;
* Python floats are modelled as exact rationals (`ℚ`);
* Python's `str.strip()` is modelled by `pyStrip` (drop whitespace from both
  ends of the character list);
* network I/O is modelled by an oracle `net : String → HttpResult _` mapping a
  candidate provider's name to the outcome of the single HTTP request the code
  issues against it;
* wall-clock values (`datetime.now()`) are threaded in as explicit `String`
  parameters (`today` / `now`); the `timestamp` field of the result dictionaries
  (always `datetime.now().isoformat()`) is omitted from the records;
* functions that `raise` are embedded as `Except String _`; functions returning
  a success flag keep their `Bool` result.
-/

/-! ## Python `str.strip()` -/

/-- The whitespace characters removed by Python's `str.strip()`. -/
def wsChar (c : Char) : Bool :=
  c = ' ' || c = '\t' || c = '\n' || c = '\r' || c = '\x0b' || c = '\x0c'

/-- `str.strip()` on a character list: drop whitespace from both ends. -/
def pyStripList (l : List Char) : List Char :=
  ((l.dropWhile wsChar).reverse.dropWhile wsChar).reverse

/-- Model of Python's `str.strip()`. -/
def pyStrip (s : String) : String :=
  String.mk (pyStripList s.toList)

/-! ## `drop_duplicates` (pandas, `keep='first'`) -/

/-- Worklist form of `DataFrame.drop_duplicates()`: keep the first occurrence
of every record, where `seen` accumulates the records already kept. -/
def dedupSeen {α : Type} [DecidableEq α] (seen : List α) : List α → List α
  | [] => []
  | x :: xs => if x ∈ seen then dedupSeen seen xs else x :: dedupSeen (x :: seen) xs

/-- Model of `DataFrame.drop_duplicates()` (keep the first occurrence). -/
def dropDuplicates {α : Type} [DecidableEq α] (l : List α) : List α :=
  dedupSeen [] l

/-! ## The sales-record row and `clean_data` -/

/-- One row of the canonical sales DataFrame (`vendas.csv` schema).
Text cells are `Option String`, numeric cells `Option ℚ`; `none` is `NaN`. -/
structure Row where
  data_venda : Option String
  produto : Option String
  categoria : Option String
  quantidade : Option ℚ
  preco_local : Option ℚ
  regiao : Option String
  vendedor : Option String
deriving DecidableEq, Repr

/-- The `.str.strip()` pass of `clean_data`: applied to every object (text)
column of the DataFrame; `NaN` stays `NaN`. -/
def stripRow (r : Row) : Row :=
  { r with
    data_venda := r.data_venda.map pyStrip
    produto := r.produto.map pyStrip
    categoria := r.categoria.map pyStrip
    regiao := r.regiao.map pyStrip
    vendedor := r.vendedor.map pyStrip }

/-- `df_clean['Quantidade'].fillna(1)`. -/
def fillQuantidade (r : Row) : Row :=
  { r with quantidade := some (r.quantidade.getD 1) }

/-- `df_clean['Produto'].fillna('Não Identificado')`. -/
def fillProduto (r : Row) : Row :=
  { r with produto := some (r.produto.getD "Não Identificado") }

/-- Model of `clean_data` (`transform.py`): drop duplicates, strip whitespace
from text columns, drop rows whose `Preco_Local` is null, impute
`Quantidade := 1` and `Produto := "Não Identificado"` for nulls — in exactly
the source's order. -/
def clean_data (df : List Row) : List Row :=
  ((((dropDuplicates df).map stripRow).filter
      fun r => r.preco_local.isSome).map fillQuantidade).map fillProduto

/-! ## Extract: quote providers with ordered failover -/

/-- The standardized exchange-rate dictionary built by
`_parse_exchange_rate_response` (the `timestamp` field is omitted, see the
module docstring). -/
structure QuoteResult where
  base : String
  target : String
  rate : ℚ
  date : String
  source : String
  fallback : Bool
deriving DecidableEq, Repr

/-- The JSON payload shape shared by the three exchange-rate providers:
an optional `rates` object (currency → number) and an optional `date` field. -/
structure ExchangeApiData where
  rates : Option (List (String × ℚ))
  date : Option String
deriving Repr

/-- One entry of the candidate-provider list (`name`, `url`, parser tag). -/
structure Api where
  name : String
  url : String
  parserKind : String
deriving DecidableEq, Repr

/-- The outcome of the single HTTP GET issued against one candidate:
timeout, transport/HTTP-level failure, or a decoded JSON payload. -/
inductive HttpResult (α : Type) where
  | timeout : HttpResult α
  | httpError : HttpResult α
  | success (data : α) : HttpResult α

/-- Model of `_parse_exchange_rate_response`: per-provider payload → common
`QuoteResult`, `none` on a missing-key (`KeyError`) failure.  `frankfurter`
reads `data['rates'][target]` and `data['date']` directly; `exchangerate` and
`fixer` read `data['rates'].get(target, 0)` and `data.get('date', <today>)`. -/
def parse_exchange_rate_response (data : ExchangeApiData) (parserKind base target source today : String) : Option QuoteResult :=
  if parserKind = "frankfurter" then
    match data.rates, data.date with
    | some rs, some d =>
      match rs.lookup target with
      | some r => some ⟨base, target, r, d, source, false⟩
      | none => none
    | _, _ => none
  else if parserKind = "exchangerate" then
    match data.rates with
    | some rs => some ⟨base, target, (rs.lookup target).getD 0, data.date.getD today, source, false⟩
    | none => none
  else if parserKind = "fixer" then
    match data.rates with
    | some rs => some ⟨base, target, (rs.lookup target).getD 0, data.date.getD today, source, false⟩
    | none => none
  else none

/-- The ordered exchange-rate provider list of `extract_exchange_rate_api`. -/
def exchangeApis (base target : String) : List Api :=
  [⟨"Frankfurter", "https://api.frankfurter.app/latest?from=" ++ base ++ "&to=" ++ target, "frankfurter"⟩,
   ⟨"ExchangeRate-API", "https://open.er-api.com/v6/latest/" ++ base, "exchangerate"⟩,
   ⟨"Fixer.io (Fallback)", "https://api.fixer.io/latest?base=" ++ base ++ "&symbols=" ++ target, "fixer"⟩]

/-- The terminal error message raised when every exchange-rate candidate
fails. -/
def exchangeFailMsg (base target : String) : String :=
  "Não foi possível obter taxa de câmbio " ++ base ++ "→" ++ target ++
    " de nenhuma fonte. Verifique sua conexão com a internet e tente novamente."

/-- The `for api in apis:` failover loop of `extract_exchange_rate_api`:
timeouts, request errors and parse failures skip to the next candidate; a
parsed result is accepted iff `result.get('rate', 0) > 0`. -/
def tryExchangeApis (net : String → HttpResult ExchangeApiData) (base target today : String) : List Api → Except String QuoteResult
  | [] => .error (exchangeFailMsg base target)
  | api :: rest =>
    match net api.name with
    | .timeout => tryExchangeApis net base target today rest
    | .httpError => tryExchangeApis net base target today rest
    | .success data =>
      match parse_exchange_rate_response data api.parserKind base target api.name today with
      | some result =>
        if 0 < result.rate then .ok result else tryExchangeApis net base target today rest
      | none => tryExchangeApis net base target today rest

/-- Model of `extract_exchange_rate_api` (`extract.py`): try the three
candidate providers in order; raise (`Except.error`) when all are exhausted. -/
def extract_exchange_rate_api (net : String → HttpResult ExchangeApiData) (today : String) (base : String := "BRL") (target : String := "USD") : Except String QuoteResult :=
  tryExchangeApis net base target today (exchangeApis base target)

/-- Model of `validate_exchange_rate`: the BRL→USD plausibility band
`0.10 <= rate <= 0.50` (any other currency pair is accepted). -/
def validate_exchange_rate (rate : ℚ) (base target : String) : Bool :=
  if base = "BRL" ∧ target = "USD" then
    if 1/10 ≤ rate ∧ rate ≤ 1/2 then true else false
  else true

/-- Model of `validate_crypto_price`: the BTC plausibility band
`10000 <= price <= 500000` (any other symbol is accepted). -/
def validate_crypto_price (price : ℚ) (crypto : String := "BTC") : Bool :=
  if crypto = "BTC" then
    if 10000 ≤ price ∧ price ≤ 500000 then true else false
  else true

/-- The standardized crypto dictionary built by `_parse_crypto_response`
(the `timestamp` field is omitted, see the module docstring). -/
structure CryptoQuote where
  crypto : String
  usd_price : ℚ
  eur_price : ℚ
  gbp_price : ℚ
  brl_price : ℚ
  source : String
  updated : String
  fallback : Bool
  note : Option String
deriving DecidableEq, Repr

/-- The union of the JSON payload shapes of the four crypto providers:
CoinGecko's `bitcoin` object, Binance's `price`, CoinCap's
`data.priceUsd`, CoinDesk's `bpi` object and `time.updated`. -/
structure CryptoApiData where
  bitcoin : Option (List (String × ℚ))
  price : Option ℚ
  dataPriceUsd : Option ℚ
  bpi : Option (List (String × ℚ))
  timeUpdated : Option String
deriving Repr

/-- Model of `_parse_crypto_response`: per-provider payload → common
`CryptoQuote`, `none` on a missing-key (`KeyError`) failure.  The
CoinGecko/Binance/CoinCap branches use `.get(..., 0)` defaults and therefore
never fail; CoinDesk indexes `data['bpi'][...]['rate_float']` and
`data['time']['updated']` directly. -/
def parse_crypto_response (data : CryptoApiData) (parserKind crypto source now : String) : Option CryptoQuote :=
  if parserKind = "coingecko" then
    let btc := data.bitcoin.getD []
    some ⟨crypto, (btc.lookup "usd").getD 0, (btc.lookup "eur").getD 0,
      (btc.lookup "gbp").getD 0, (btc.lookup "brl").getD 0, source, now, false, none⟩
  else if parserKind = "binance" then
    let p := data.price.getD 0
    some ⟨crypto, p, p * (92/100), p * (79/100), p * (535/100), source, now, false,
      some "Conversões EUR/GBP/BRL são aproximadas"⟩
  else if parserKind = "coincap" then
    let p := data.dataPriceUsd.getD 0
    some ⟨crypto, p, p * (92/100), p * (79/100), p * (535/100), source, now, false,
      some "Conversões EUR/GBP/BRL são aproximadas"⟩
  else if parserKind = "coindesk" then
    match data.bpi, data.timeUpdated with
    | some bpi, some upd =>
      match bpi.lookup "USD", bpi.lookup "EUR", bpi.lookup "GBP" with
      | some u, some e, some g => some ⟨crypto, u, e, g, u * (535/100), source, upd, false, none⟩
      | _, _, _ => none
    | _, _ => none
  else none

/-- The ordered crypto provider list of `extract_crypto_price_api`. -/
def cryptoApis : List Api :=
  [⟨"CoinGecko", "https://api.coingecko.com/api/v3/simple/price", "coingecko"⟩,
   ⟨"Binance", "https://api.binance.com/api/v3/ticker/price", "binance"⟩,
   ⟨"CoinCap", "https://api.coincap.io/v2/assets/bitcoin", "coincap"⟩,
   ⟨"CoinDesk", "https://api.coindesk.com/v1/bpi/currentprice.json", "coindesk"⟩]

/-- The terminal error message raised when every crypto candidate fails. -/
def cryptoFailMsg : String :=
  "Não foi possível obter cotação de criptomoeda de nenhuma fonte. " ++
    "Verifique sua conexão com a internet e tente novamente."

/-- The `for api in apis:` failover loop of `extract_crypto_price_api`:
a parsed result dictionary is always truthy, so `if result:` accepts exactly
the non-`None` parses. -/
def tryCryptoApis (net : String → HttpResult CryptoApiData) (crypto now : String) : List Api → Except String CryptoQuote
  | [] => .error cryptoFailMsg
  | api :: rest =>
    match net api.name with
    | .timeout => tryCryptoApis net crypto now rest
    | .httpError => tryCryptoApis net crypto now rest
    | .success data =>
      match parse_crypto_response data api.parserKind crypto api.name now with
      | some result => .ok result
      | none => tryCryptoApis net crypto now rest

/-- Model of `extract_crypto_price_api` (`extract.py`): try the four candidate
providers in order; raise (`Except.error`) when all are exhausted. -/
def extract_crypto_price_api (net : String → HttpResult CryptoApiData) (now : String) (crypto : String := "BTC") : Except String CryptoQuote :=
  tryCryptoApis net crypto now cryptoApis

/-- A failed exchange-rate candidate, as the loop of
`extract_exchange_rate_api` sees it: the request timed out, failed at the
transport/HTTP level, the payload did not parse, or the parsed rate was not
strictly positive. -/
def exchangeCandidateFails (net : String → HttpResult ExchangeApiData) (base target today : String) (api : Api) : Prop :=
  match net api.name with
  | .timeout => True
  | .httpError => True
  | .success data =>
    ∀ q, parse_exchange_rate_response data api.parserKind base target api.name today = some q → q.rate ≤ 0

/-- A failed crypto candidate, as the loop of `extract_crypto_price_api` sees
it: the request timed out, failed at the transport/HTTP level, or the payload
did not parse. -/
def cryptoCandidateFails (net : String → HttpResult CryptoApiData) (crypto now : String) (api : Api) : Prop :=
  match net api.name with
  | .timeout => True
  | .httpError => True
  | .success data => parse_crypto_response data api.parserKind crypto api.name now = none

/-! ## Transform: enrich and aggregate -/

/-- The `pd.cut` bucketing of `Valor_Total_USD` in `enrich_data`:
right-closed, left-open intervals over the bins `[0, 50, 200, 500, inf]`
labelled `Baixo`/`Médio`/`Alto`/`Premium`; a value outside every bin (in
particular a value `≤ 0`) gets a null label. -/
def categoriaValor (v : ℚ) : Option String :=
  if 0 < v ∧ v ≤ 50 then some "Baixo"
  else if 50 < v ∧ v ≤ 200 then some "Médio"
  else if 200 < v ∧ v ≤ 500 then some "Alto"
  else if 500 < v then some "Premium"
  else none

/-- A sales row after `enrich_data`: the original cells plus the exchange
rate used, the converted unit price and total value, and the value-tier
label.  The calendar columns (`Ano`/`Mes`/`Dia_Semana`/`Nome_Dia`) and the
processing timestamp, which only repackage the date cell and the wall clock,
are covered by the column-level model `enrich_columns` below. -/
structure EnrichedRow where
  data_venda : Option String
  produto : Option String
  categoria : Option String
  quantidade : Option ℚ
  preco_local : Option ℚ
  regiao : Option String
  vendedor : Option String
  taxa_cambio : ℚ
  preco_usd : Option ℚ
  valor_total_usd : Option ℚ
  categoria_valor : Option String
deriving DecidableEq, Repr

/-- The per-row work of `enrich_data` at rate `rate`:
`Preco_USD = Preco_Local * rate`, `Valor_Total_USD = Quantidade * Preco_USD`
(both propagating `NaN`), and `Categoria_Valor = pd.cut(Valor_Total_USD, …)`. -/
def enrichRow (rate : ℚ) (r : Row) : EnrichedRow :=
  let preco_usd := r.preco_local.map (· * rate)
  let valor_total_usd :=
    match r.quantidade, preco_usd with
    | some q, some p => some (q * p)
    | _, _ => none
  ⟨r.data_venda, r.produto, r.categoria, r.quantidade, r.preco_local, r.regiao,
    r.vendedor, rate, preco_usd, valor_total_usd, valor_total_usd.bind categoriaValor⟩

/-- Model of `enrich_data` (`transform.py`) on the canonical schema: the
function only reads `exchange_rate['rate']` from the quote dictionary. -/
def enrich_data (df : List Row) (rate : ℚ) : List EnrichedRow :=
  df.map (enrichRow rate)

/-- Column-level model of `enrich_data`: assigning `df[c] = …` appends the
column `c` unless it already exists. -/
def addColumn (cols : List String) (c : String) : List String :=
  if c ∈ cols then cols else cols ++ [c]

/-- `df_enriched['Taxa_Cambio'] = rate` — unconditional. -/
def enrichStageTaxa (cols : List String) : List String :=
  addColumn cols "Taxa_Cambio"

/-- `if 'Preco_Local' in df_enriched.columns:` add `Preco_USD`. -/
def enrichStagePreco (cols : List String) : List String :=
  if "Preco_Local" ∈ cols then addColumn cols "Preco_USD" else cols

/-- `if 'Quantidade' in … and 'Preco_USD' in …:` add `Valor_Total_USD`. -/
def enrichStageValorTotal (cols : List String) : List String :=
  if "Quantidade" ∈ cols ∧ "Preco_USD" ∈ cols then addColumn cols "Valor_Total_USD" else cols

/-- `if 'Data_Venda' in …:` add `Ano`, `Mes`, `Dia_Semana`, `Nome_Dia`. -/
def enrichStageCalendar (cols : List String) : List String :=
  if "Data_Venda" ∈ cols then
    addColumn (addColumn (addColumn (addColumn cols "Ano") "Mes") "Dia_Semana") "Nome_Dia"
  else cols

/-- `if 'Valor_Total_USD' in …:` add `Categoria_Valor`. -/
def enrichStageCategoria (cols : List String) : List String :=
  if "Valor_Total_USD" ∈ cols then addColumn cols "Categoria_Valor" else cols

/-- The columns of `enrich_data`'s output as a function of the input columns:
the source's column assignments in order, ending with the unconditional
`Data_Processamento` stamp. -/
def enrich_columns (cols : List String) : List String :=
  addColumn
    (enrichStageCategoria (enrichStageCalendar (enrichStageValorTotal
      (enrichStagePreco (enrichStageTaxa cols))))) "Data_Processamento"

/-- One row of `aggregate_data`'s output (after the column renaming). -/
structure AggRow where
  data_venda : String
  total_vendas_usd : ℚ
  ticket_medio_usd : ℚ
  numero_transacoes : ℕ
  quantidade_total : ℚ
  preco_medio_usd : ℚ
  produtos_unicos : ℕ
  itens_por_transacao : ℚ
deriving DecidableEq, Repr

/-- Insert a string into an ascending-sorted list (groupby sorts its keys). -/
def insertSorted (s : String) : List String → List String
  | [] => [s]
  | t :: ts => if s < t then s :: t :: ts else t :: insertSorted s ts

/-- Ascending insertion sort on strings. -/
def sortStrings (l : List String) : List String :=
  l.foldr insertSorted []

/-- Model of `aggregate_data` (`transform.py`): group by `Data_Venda` (null
keys dropped, keys sorted ascending, as `groupby` does) and compute per group
sum/mean/count of `Valor_Total_USD`, sum of `Quantidade`, mean of
`Preco_USD`, `nunique` of `Produto` (each skipping nulls), and
`Itens_Por_Transacao = Quantidade_Total / Numero_Transacoes`. -/
def aggregate_data (rows : List EnrichedRow) : List AggRow :=
  (sortStrings (dropDuplicates (rows.filterMap (fun r => r.data_venda)))).map fun k =>
    let g := rows.filter fun r => r.data_venda = some k
    let vals := g.filterMap fun r => r.valor_total_usd
    let precos := g.filterMap fun r => r.preco_usd
    let quantTotal := (g.filterMap fun r => r.quantidade).sum
    let numTrans := vals.length
    ⟨k, vals.sum, vals.sum / (vals.length : ℚ), numTrans, quantTotal,
      precos.sum / (precos.length : ℚ),
      (dropDuplicates (g.filterMap fun r => r.produto)).length,
      quantTotal / (numTrans : ℚ)⟩

/-! ## Load & orchestrator -/

/-- One row of the `etl_metadata` ledger (`execution_date` and
`execution_time_seconds`, which only record the wall clock, are omitted). -/
structure LedgerEntry where
  pipeline_status : String
  records_processed : ℕ
  tables_loaded : List String
  notes : String
deriving DecidableEq, Repr

/-- The outcomes of the effectful steps of one `load_all_data` call:
whether the connection opens, whether each `to_sql` write succeeds, and
whether the `INSERT` into the ledger succeeds. -/
structure LoadEnv where
  connectOk : Bool
  writeDetailedOk : Bool
  writeAggOk : Bool
  ledgerAppendOk : Bool
deriving DecidableEq, Repr

/-- Model of `log_pipeline_execution` (`load.py`): append one ledger row and
return `True`, or catch the failure and return `False` with the ledger
unchanged. -/
def log_pipeline_execution (env : LoadEnv) (ledger : List LedgerEntry) (status : String) (records : ℕ) (tables : List String) (notes : String) : Bool × List LedgerEntry :=
  if env.ledgerAppendOk then (true, ledger ++ [⟨status, records, tables, notes⟩])
  else (false, ledger)

/-- Model of `load_all_data` (`load.py`), returning its `Bool` result and the
ledger rows appended during the call.  Mirrors the source: a failed
connection raises before `engine` is bound, so the `except` block's ledger
write raises `NameError` and is absorbed by the bare `except`; after two
successful writes the SUCCESS ledger append's return value is ignored; after
a failed write a FAILED entry is appended best-effort. -/
def load_all_data (env : LoadEnv) (nDetailed : ℕ) (load_mode : String) : Bool × List LedgerEntry :=
  if env.connectOk then
    if env.writeDetailedOk && env.writeAggOk then
      let logged := log_pipeline_execution env [] "SUCCESS" nDetailed
        ["vendas_detalhadas", "vendas_agregadas"] ("Load mode: " ++ load_mode)
      (true, logged.2)
    else
      let logged := log_pipeline_execution env [] "FAILED" 0 []
        "Falha ao carregar uma ou mais tabelas"
      (false, logged.2)
  else (false, [])

/-- The outcomes of the effectful steps of one `run_pipeline` call:
whether `extract_all_sources` and `transform_data` complete, the number of
detailed records they produce, and the Load step's environment. -/
structure PipelineEnv where
  extractOk : Bool
  transformOk : Bool
  nRecords : ℕ
  loadEnv : LoadEnv
deriving DecidableEq, Repr

/-- Model of `run_pipeline` (`main.py`): a failure in Extract or Transform is
caught and mapped to `False` without reaching `load_all_data`; otherwise the
run's result is `load_all_data`'s result. -/
def run_pipeline (env : PipelineEnv) (load_mode : String) : Bool × List LedgerEntry :=
  if env.extractOk then
    if env.transformOk then load_all_data env.loadEnv env.nRecords load_mode
    else (false, [])
  else (false, [])

/-! ## Concrete test fixtures -/

/-- A network oracle where the first candidate (Frankfurter) answers with the
implausible rate `0.60`. -/
def netSixty : String → HttpResult ExchangeApiData := fun name =>
  if name = "Frankfurter" then .success ⟨some [("USD", 3/5)], some "2024-01-01"⟩
  else .timeout

/-- The quote produced from `netSixty`. -/
def quoteSixty : QuoteResult :=
  ⟨"BRL", "USD", 3/5, "2024-01-01", "Frankfurter", false⟩

/-- A network oracle where the first candidate answers with rate `0`. -/
def netZeroRate : String → HttpResult ExchangeApiData := fun name =>
  if name = "Frankfurter" then .success ⟨some [("USD", 0)], some "2024-01-01"⟩
  else .timeout

/-- A network oracle where candidate 1 times out and candidate 2 answers with
the plausible rate `0.18`. -/
def netFailover : String → HttpResult ExchangeApiData := fun name =>
  if name = "Frankfurter" then .timeout
  else if name = "ExchangeRate-API" then .success ⟨some [("USD", 9/50)], some "2024-01-05"⟩
  else .httpError

/-- The quote produced from `netFailover`'s second candidate. -/
def quoteFailover : QuoteResult :=
  ⟨"BRL", "USD", 9/50, "2024-01-05", "ExchangeRate-API", false⟩

/-- A network oracle where the first candidate answers with rate `0.18`. -/
def netGood : String → HttpResult ExchangeApiData := fun name =>
  if name = "Frankfurter" then .success ⟨some [("USD", 9/50)], some "2024-01-01"⟩
  else .timeout

/-- The quote produced from `netGood`. -/
def netGoodQuote : QuoteResult :=
  ⟨"BRL", "USD", 9/50, "2024-01-01", "Frankfurter", false⟩

/-- An exchange-rate network oracle where every request times out. -/
def netAllTimeoutE : String → HttpResult ExchangeApiData := fun _ => .timeout

/-- A crypto network oracle where every request times out. -/
def netAllTimeoutC : String → HttpResult CryptoApiData := fun _ => .timeout

/-- Two rows that differ only by leading whitespace in `Produto`: distinct for
the dedup pass, identical after the strip pass. -/
def dfStripDup : List Row :=
  [⟨some "2024-01-01", some " mouse", some "acessorios", some 1, some 50, some "sul", some "ana"⟩,
   ⟨some "2024-01-01", some "mouse", some "acessorios", some 1, some 50, some "sul", some "ana"⟩]

/-- Three well-formed distinct rows (the module's own standalone test data). -/
def dfThreeRows : List Row :=
  [⟨some "2024-01-01", some "Notebook", some "Eletrônicos", some 1, some 3000, some "Sul", none⟩,
   ⟨some "2024-01-01", some "Mouse", some "Acessórios", some 2, some 50, some "Norte", none⟩,
   ⟨some "2024-01-02", some "Teclado", some "Acessórios", some 1, some 150, some "Sul", none⟩]

/-- The three-row fixture of the aggregation property: two sales on
2024-01-01 (quantities 2 and 5, local prices 3500 and 50) and one on
2024-01-02 (quantity 3, local price 200). -/
def dfAggregation : List Row :=
  [⟨some "2024-01-01", some "notebook", some "eletronicos", some 2, some 3500, some "sul", none⟩,
   ⟨some "2024-01-01", some "mouse", some "acessorios", some 5, some 50, some "norte", none⟩,
   ⟨some "2024-01-02", some "teclado", some "acessorios", some 3, some 200, some "sul", none⟩]

/-- The canonical sales-schema column list. -/
def canonicalCols : List String :=
  ["Data_Venda", "Produto", "Categoria", "Quantidade", "Preco_Local", "Regiao", "Vendedor"]

/-- A row with quantity 0 (so its converted total value is exactly 0). -/
def rowZeroQty : Row :=
  ⟨some "2024-01-03", some "cabo", some "acessorios", some 0, some 25, some "sul", none⟩

/-- A load environment where both table writes succeed but the ledger
`INSERT` fails. -/
def envLedgerFail : LoadEnv := ⟨true, true, true, false⟩

/-- A pipeline environment whose extraction step fails. -/
def envExtractFail : PipelineEnv := ⟨false, true, 3, ⟨true, true, true, true⟩⟩

/-- A pipeline environment that reaches Load and fails the detailed-table
write, with a working ledger. -/
def envWriteFail : PipelineEnv := ⟨true, true, 7, ⟨true, false, true, true⟩⟩

/-! ## Helper lemmas: trimming, dedup, pointwise-identity maps -/

theorem dropWhile_self {α : Type} (p : α → Bool) (l : List α) :
    (l.dropWhile p).dropWhile p = l.dropWhile p := by
  induction l with
  | nil => rfl
  | cons a t ih =>
    by_cases h : p a
    · rw [List.dropWhile_cons_of_pos h]; exact ih
    · rw [List.dropWhile_cons_of_neg (by simpa using h),
        List.dropWhile_cons_of_neg (by simpa using h)]

theorem length_dropWhile_le {α : Type} (p : α → Bool) (l : List α) :
    (l.dropWhile p).length ≤ l.length := by
  induction l with
  | nil => simp
  | cons a t ih =>
    by_cases h : p a
    · rw [List.dropWhile_cons_of_pos h]; exact Nat.le_succ_of_le ih
    · rw [List.dropWhile_cons_of_neg (by simpa using h)]

theorem exists_append_dropWhile {α : Type} (p : α → Bool) (l : List α) :
    ∃ s, s ++ l.dropWhile p = l := by
  induction l with
  | nil => exact ⟨[], rfl⟩
  | cons a t ih =>
    by_cases h : p a
    · obtain ⟨s, hs⟩ := ih
      exact ⟨a :: s, by rw [List.dropWhile_cons_of_pos h]; simpa using hs⟩
    · exact ⟨[], by rw [List.dropWhile_cons_of_neg (by simpa using h)]; rfl⟩

theorem dropWhile_of_append_fixed {α : Type} (p : α → Bool) (q t : List α)
    (h : (q ++ t).dropWhile p = q ++ t) : q.dropWhile p = q := by
  cases q with
  | nil => rfl
  | cons a q' =>
    rw [List.cons_append] at h
    have ha : ¬p a = true := by
      intro hpa
      have hlen := congrArg List.length h
      rw [List.dropWhile_cons_of_pos hpa] at hlen
      have hle := length_dropWhile_le p (q' ++ t)
      rw [hlen] at hle
      simp only [List.length_cons] at hle
      omega
    rw [List.dropWhile_cons_of_neg ha]

theorem pyStripList_self (l : List Char) : pyStripList (pyStripList l) = pyStripList l := by
  unfold pyStripList
  have hAfix : ((l.dropWhile wsChar).dropWhile wsChar) = l.dropWhile wsChar :=
    dropWhile_self wsChar l
  obtain ⟨s, hs⟩ := exists_append_dropWhile wsChar (l.dropWhile wsChar).reverse
  set B := ((l.dropWhile wsChar).reverse.dropWhile wsChar).reverse with hB
  have hBrev : B.reverse = (l.dropWhile wsChar).reverse.dropWhile wsChar := by
    rw [hB, List.reverse_reverse]
  have hsplit : l.dropWhile wsChar = B ++ s.reverse := by
    have := congrArg List.reverse hs
    rw [List.reverse_append, List.reverse_reverse] at this
    rw [← this, hB]
  have hBfix : B.dropWhile wsChar = B := by
    apply dropWhile_of_append_fixed wsChar B s.reverse
    rw [← hsplit]; exact hAfix
  rw [hBfix, hBrev, dropWhile_self, ← hBrev, List.reverse_reverse]

theorem pyStrip_self (s : String) : pyStrip (pyStrip s) = pyStrip s := by
  unfold pyStrip
  have : (String.mk (pyStripList s.toList)).toList = pyStripList s.toList := rfl
  rw [this, pyStripList_self]

theorem mem_of_mem_dedupSeen {α : Type} [DecidableEq α] {seen l : List α} {x : α}
    (h : x ∈ dedupSeen seen l) : x ∈ l := by
  induction l generalizing seen with
  | nil => simp [dedupSeen] at h
  | cons a t ih =>
    rw [dedupSeen] at h
    split at h
    · exact List.mem_cons_of_mem a (ih h)
    · rcases List.mem_cons.mp h with h' | h'
      · exact h' ▸ List.mem_cons_self a t
      · exact List.mem_cons_of_mem a (ih h')

theorem mem_of_mem_dropDuplicates {α : Type} [DecidableEq α] {l : List α} {x : α}
    (h : x ∈ dropDuplicates l) : x ∈ l :=
  mem_of_mem_dedupSeen h

theorem dedupSeen_eq_self {α : Type} [DecidableEq α] {l : List α} (seen : List α)
    (h1 : l.Nodup) (h2 : ∀ x ∈ l, x ∉ seen) : dedupSeen seen l = l := by
  induction l generalizing seen with
  | nil => rfl
  | cons a t ih =>
    rw [dedupSeen, if_neg (h2 a (List.mem_cons_self a t))]
    congr 1
    refine ih (a :: seen) (List.Nodup.of_cons h1) ?_
    intro x hx
    intro hmem
    rcases List.mem_cons.mp hmem with h' | h'
    · exact (List.Nodup.not_mem (by simpa using h1)) (h' ▸ hx)
    · exact h2 x (List.mem_cons_of_mem a hx) h'

theorem dropDuplicates_eq_self_of_nodup {α : Type} [DecidableEq α] {l : List α}
    (h : l.Nodup) : dropDuplicates l = l :=
  dedupSeen_eq_self [] h (by simp)

theorem map_eq_self_of_mem {α : Type} {l : List α} {f : α → α}
    (h : ∀ a ∈ l, f a = a) : l.map f = l := by
  induction l with
  | nil => rfl
  | cons a t ih =>
    rw [List.map_cons, h a (List.mem_cons_self a t), ih fun b hb => h b (List.mem_cons_of_mem a hb)]

theorem pyStrip_sentinel : pyStrip "Não Identificado" = "Não Identificado" := by decide

theorem optStrip_self (o : Option String) : (o.map pyStrip).map pyStrip = o.map pyStrip := by
  cases o with
  | none => rfl
  | some s => simp [pyStrip_self]

theorem clean_data_row_normalized {df : List Row} {r : Row} (hr : r ∈ clean_data df) :
    stripRow r = r ∧ r.preco_local.isSome = true ∧ fillQuantidade r = r ∧ fillProduto r = r := by
  unfold clean_data at hr
  obtain ⟨b, hb, hbr⟩ := List.mem_map.mp hr
  obtain ⟨a, ha, hab⟩ := List.mem_map.mp hb
  obtain ⟨ha', hpa⟩ := List.mem_filter.mp ha
  obtain ⟨s, _, hsa⟩ := List.mem_map.mp ha'
  subst hbr hab hsa
  obtain ⟨dv, pr, ca, qt, pl, rg, vd⟩ := s
  refine ⟨?_, ?_, ?_, ?_⟩
  · simp only [stripRow, fillQuantidade, fillProduto, Row.mk.injEq]
    refine ⟨optStrip_self dv, ?_, optStrip_self ca, trivial, trivial, optStrip_self rg, optStrip_self vd⟩
    cases pr with
    | none => simp [pyStrip_sentinel]
    | some t => simp [pyStrip_self]
  · simpa [stripRow, fillQuantidade, fillProduto] using hpa
  · simp [stripRow, fillQuantidade, fillProduto]
  · simp only [fillQuantidade, fillProduto]
    cases pr <;> simp [stripRow]

theorem clean_data_reapply (df : List Row) :
    clean_data (clean_data df) = dropDuplicates (clean_data df) := by
  have hnorm : ∀ r ∈ clean_data df,
      stripRow r = r ∧ r.preco_local.isSome = true ∧ fillQuantidade r = r ∧ fillProduto r = r :=
    fun _ hr => clean_data_row_normalized hr
  set L := clean_data df with hL
  unfold clean_data
  have hmem : ∀ a ∈ dropDuplicates L, a ∈ L := fun _ ha => mem_of_mem_dropDuplicates ha
  rw [map_eq_self_of_mem fun a ha => (hnorm a (hmem a ha)).1,
    List.filter_eq_self.mpr fun a ha => (hnorm a (hmem a ha)).2.1,
    map_eq_self_of_mem fun a ha => (hnorm a (hmem a ha)).2.2.1,
    map_eq_self_of_mem fun a ha => (hnorm a (hmem a ha)).2.2.2]

/-! ## Helper lemmas: column additions -/

theorem mem_addColumn_of_mem {x c : String} {cols : List String} (h : x ∈ cols) :
    x ∈ addColumn cols c := by
  unfold addColumn
  split
  · exact h
  · exact List.mem_append_left _ h

theorem mem_addColumn_self (c : String) (cols : List String) : c ∈ addColumn cols c := by
  unfold addColumn
  split
  · assumption
  · simp

theorem mem_enrichStageTaxa_of_mem {x : String} {cols : List String} (h : x ∈ cols) :
    x ∈ enrichStageTaxa cols := mem_addColumn_of_mem h

theorem mem_enrichStagePreco_of_mem {x : String} {cols : List String} (h : x ∈ cols) :
    x ∈ enrichStagePreco cols := by
  unfold enrichStagePreco
  split
  · exact mem_addColumn_of_mem h
  · exact h

theorem mem_enrichStageValorTotal_of_mem {x : String} {cols : List String} (h : x ∈ cols) :
    x ∈ enrichStageValorTotal cols := by
  unfold enrichStageValorTotal
  split
  · exact mem_addColumn_of_mem h
  · exact h

theorem mem_enrichStageCalendar_of_mem {x : String} {cols : List String} (h : x ∈ cols) :
    x ∈ enrichStageCalendar cols := by
  unfold enrichStageCalendar
  split
  · exact mem_addColumn_of_mem (mem_addColumn_of_mem (mem_addColumn_of_mem (mem_addColumn_of_mem h)))
  · exact h

theorem mem_enrichStageCategoria_of_mem {x : String} {cols : List String} (h : x ∈ cols) :
    x ∈ enrichStageCategoria cols := by
  unfold enrichStageCategoria
  split
  · exact mem_addColumn_of_mem h
  · exact h

theorem mem_enrich_columns_of_mem {x : String} {cols : List String} (h : x ∈ cols) :
    x ∈ enrich_columns cols :=
  mem_addColumn_of_mem (mem_enrichStageCategoria_of_mem (mem_enrichStageCalendar_of_mem
    (mem_enrichStageValorTotal_of_mem (mem_enrichStagePreco_of_mem
      (mem_enrichStageTaxa_of_mem h)))))

/-! ## Helper lemmas: the failover loops -/

theorem tryExchangeApis_ok_rate_pos {net : String → HttpResult ExchangeApiData}
    {base target today : String} {q : QuoteResult} :
    ∀ {apis : List Api}, tryExchangeApis net base target today apis = .ok q → 0 < q.rate := by
  intro apis
  induction apis with
  | nil => intro h; simp [tryExchangeApis] at h
  | cons api rest ih =>
    intro h
    rw [tryExchangeApis] at h
    split at h
    · exact ih h
    · exact ih h
    · split at h
      · split at h
        · rename_i hrate
          cases h
          exact hrate
        · exact ih h
      · exact ih h

theorem tryExchangeApis_error_of_fails {net : String → HttpResult ExchangeApiData}
    {base target today : String} :
    ∀ {apis : List Api}, (∀ a ∈ apis, exchangeCandidateFails net base target today a) →
      tryExchangeApis net base target today apis = .error (exchangeFailMsg base target) := by
  intro apis
  induction apis with
  | nil => intro _; rfl
  | cons api rest ih =>
    intro h
    have hhead := h api (List.mem_cons_self api rest)
    have htail := fun a ha => h a (List.mem_cons_of_mem api ha)
    rw [tryExchangeApis]
    unfold exchangeCandidateFails at hhead
    split
    · exact ih htail
    · exact ih htail
    · rename_i data heq
      rw [heq] at hhead
      rcases hp : parse_exchange_rate_response data api.parserKind base target api.name today
          with _ | result
      · exact ih htail
      · show (if 0 < result.rate then Except.ok result
            else tryExchangeApis net base target today rest) =
          Except.error (exchangeFailMsg base target)
        rw [if_neg (not_lt.mpr (hhead result hp))]
        exact ih htail

theorem tryCryptoApis_error_of_fails {net : String → HttpResult CryptoApiData}
    {crypto now : String} :
    ∀ {apis : List Api}, (∀ a ∈ apis, cryptoCandidateFails net crypto now a) →
      tryCryptoApis net crypto now apis = .error cryptoFailMsg := by
  intro apis
  induction apis with
  | nil => intro _; rfl
  | cons api rest ih =>
    intro h
    have hhead := h api (List.mem_cons_self api rest)
    have htail := fun a ha => h a (List.mem_cons_of_mem api ha)
    rw [tryCryptoApis]
    unfold cryptoCandidateFails at hhead
    split
    · exact ih htail
    · exact ih htail
    · rename_i data heq
      rw [heq] at hhead
      have hp : parse_crypto_response data api.parserKind crypto api.name now = none := hhead
      rw [hp]
      exact ih htail

theorem parse_exchangerate_source {data : ExchangeApiData} {base target source today : String}
    {q : QuoteResult}
    (h : parse_exchange_rate_response data "exchangerate" base target source today = some q) :
    q.source = source := by
  unfold parse_exchange_rate_response at h
  simp only [reduceIte, String.reduceEq] at h
  rcases hrs : data.rates with _ | rs
  · rw [hrs] at h
    have hnone : (none : Option QuoteResult) = some q := h
    simp at hnone
  · rw [hrs] at h
    have hsome : some (⟨base, target, (List.lookup target rs).getD 0,
        data.date.getD today, source, false⟩ : QuoteResult) = some q := h
    injection hsome with hq
    rw [← hq]

/-! ## Claim theorems -/

/-- C1, counterexample: the failover loop of `extract_exchange_rate_api`
accepts a candidate whose parsed BRL→USD rate is `0.60`, even though
`validate_exchange_rate` classifies that rate as implausible — the
plausibility band is not enforced, so the claim is false as stated. -/
theorem c1_band_not_enforced_cex :
    extract_exchange_rate_api netSixty "2024-01-01" "BRL" "USD" = .ok quoteSixty ∧
    quoteSixty.rate = 3/5 ∧
    validate_exchange_rate quoteSixty.rate "BRL" "USD" = false := by
  refine ⟨?_, rfl, ?_⟩
  · norm_num [extract_exchange_rate_api, exchangeApis, tryExchangeApis, netSixty,
      parse_exchange_rate_response, List.lookup, quoteSixty]
  · norm_num [validate_exchange_rate, quoteSixty]

/-- C1 (amended): the only acceptance check the failover loop of
`extract_exchange_rate_api` performs on a parsed candidate is
`result.get('rate', 0) > 0`: a candidate whose parsed rate is ≤ 0 is rejected
and the next candidate is tried; the `0.10 ≤ r ≤ 0.50` plausibility band of
`validate_exchange_rate` is not applied. -/
theorem c1_nonpositive_rate_candidate_skipped
    (net : String → HttpResult ExchangeApiData) (base target today : String)
    (a : Api) (rest : List Api) (d : ExchangeApiData) (q : QuoteResult)
    (h1 : net a.name = .success d)
    (h2 : parse_exchange_rate_response d a.parserKind base target a.name today = some q)
    (h3 : q.rate ≤ 0) :
    tryExchangeApis net base target today (a :: rest) =
      tryExchangeApis net base target today rest := by
  simp [tryExchangeApis, h1, h2, if_neg (not_lt.mpr h3)]

/-- Witness for C1 (amended): a first candidate parsing to rate `0` is
skipped, so the failover proceeds to the remaining candidates. -/
theorem c1_nonpositive_rate_candidate_skipped_witness :
    tryExchangeApis netZeroRate "BRL" "USD" "2024-01-01" (exchangeApis "BRL" "USD") =
      tryExchangeApis netZeroRate "BRL" "USD" "2024-01-01"
        ((exchangeApis "BRL" "USD").drop 1) :=
  c1_nonpositive_rate_candidate_skipped netZeroRate "BRL" "USD" "2024-01-01"
    ⟨"Frankfurter", "https://api.frankfurter.app/latest?from=" ++ "BRL" ++ "&to=" ++ "USD", "frankfurter"⟩
    ((exchangeApis "BRL" "USD").drop 1)
    ⟨some [("USD", 0)], some "2024-01-01"⟩
    ⟨"BRL", "USD", 0, "2024-01-01", "Frankfurter", false⟩
    rfl rfl le_rfl

/-- C2, counterexample: with both destination writes succeeding and the
ledger `INSERT` failing, `load_all_data` still returns `True` and records no
SUCCESS ledger entry — so the run is reported as a success even though the
ledger append did not complete. -/
theorem c2_ledger_failure_still_success_cex :
    load_all_data envLedgerFail 3 "replace" = (true, []) ∧
    envLedgerFail.ledgerAppendOk = false :=
  ⟨rfl, rfl⟩

/-- C2 (amended): once the connection opens, `load_all_data` returns `True`
exactly when both destination table writes succeed; the outcome of the ledger
append does not influence the returned flag, and when the append fails after
two successful writes the call records no ledger entry at all. -/
theorem c2_success_iff_both_writes (env : LoadEnv) (n : ℕ) (mode : String)
    (hc : env.connectOk = true) :
    ((load_all_data env n mode).1 = true ↔
      (env.writeDetailedOk = true ∧ env.writeAggOk = true)) ∧
    (env.writeDetailedOk = true → env.writeAggOk = true → env.ledgerAppendOk = false →
      (load_all_data env n mode).2 = []) := by
  obtain ⟨c, w1, w2, la⟩ := env
  cases c
  · simp at hc
  · cases w1 <;> cases w2 <;> cases la <;>
      simp [load_all_data, log_pipeline_execution]

/-- Witness for C2 (amended), at the environment whose ledger append fails. -/
theorem c2_success_iff_both_writes_witness :
    ((load_all_data envLedgerFail 5 "append").1 = true ↔
      (envLedgerFail.writeDetailedOk = true ∧ envLedgerFail.writeAggOk = true)) ∧
    (load_all_data envLedgerFail 5 "append").2 = [] :=
  ⟨(c2_success_iff_both_writes envLedgerFail 5 "append" rfl).1,
   (c2_success_iff_both_writes envLedgerFail 5 "append" rfl).2 rfl rfl rfl⟩

/-- C3, counterexample: two rows that differ only by leading whitespace
survive deduplication (which runs first), are made identical by the strip
pass, and are merged only by a second application of `clean_data` — so
`clean_data` is not idempotent. -/
theorem c3_clean_not_idempotent_cex :
    clean_data (clean_data dfStripDup) ≠ clean_data dfStripDup := by decide

/-- C3 (amended): re-applying `clean_data` strips nothing further, drops no
further row for a missing price and imputes nothing further — the second
application is exactly duplicate removal, and `clean_data` is idempotent
precisely on inputs whose cleaned form is already duplicate-free (the first
application's trimming/imputation can manufacture new duplicates). -/
theorem c3_clean_reapply_is_dedup (df : List Row) :
    clean_data (clean_data df) = dropDuplicates (clean_data df) ∧
    ((clean_data df).Nodup → clean_data (clean_data df) = clean_data df) :=
  ⟨clean_data_reapply df,
   fun h => (clean_data_reapply df).trans (dropDuplicates_eq_self_of_nodup h)⟩

/-- Witness for C3 (amended), at a three-row input whose cleaned form is
duplicate-free. -/
theorem c3_clean_reapply_is_dedup_witness :
    (clean_data dfThreeRows).Nodup ∧
    clean_data (clean_data dfThreeRows) = clean_data dfThreeRows :=
  ⟨by decide, (c3_clean_reapply_is_dedup dfThreeRows).2 (by decide)⟩

/-- C4, counterexample: a run that fails during extraction returns `False`
with an empty ledger — zero `PipelineExecutionRecord`s, not the claimed
exactly one FAILED entry. -/
theorem c4_no_ledger_entry_before_load_cex :
    run_pipeline envExtractFail "replace" = (false, []) ∧
    (run_pipeline envExtractFail "replace").2.length = 0 :=
  ⟨rfl, rfl⟩

/-- C4 (amended): an orchestrated run appends at most one ledger entry; a run
that fails during extraction or transformation (before Load) appends none;
and exactly one entry is appended when Load is reached with a working
connection and ledger (whether the run ends SUCCESS or FAILED). -/
theorem c4_at_most_one_ledger_entry (env : PipelineEnv) (mode : String) :
    (run_pipeline env mode).2.length ≤ 1 ∧
    (env.extractOk = false ∨ env.transformOk = false →
      run_pipeline env mode = (false, [])) ∧
    (env.extractOk = true → env.transformOk = true → env.loadEnv.connectOk = true →
      env.loadEnv.ledgerAppendOk = true → (run_pipeline env mode).2.length = 1) := by
  obtain ⟨e, t, n, ⟨c, w1, w2, la⟩⟩ := env
  cases e <;> cases t <;> cases c <;> cases w1 <;> cases w2 <;> cases la <;>
    simp [run_pipeline, load_all_data, log_pipeline_execution]

/-- Witness for C4 (amended), at a run whose detailed-table write fails:
exactly one (FAILED) ledger entry. -/
theorem c4_at_most_one_ledger_entry_witness :
    (run_pipeline envWriteFail "append").2.length ≤ 1 ∧
    (run_pipeline envWriteFail "append").2.length = 1 :=
  ⟨(c4_at_most_one_ledger_entry envWriteFail "append").1,
   (c4_at_most_one_ledger_entry envWriteFail "append").2.2 rfl rfl rfl rfl⟩

/-- C5: if candidate 1 (Frankfurter) times out and candidate 2
(ExchangeRate-API) returns a payload that parses with a strictly positive
rate, `extract_exchange_rate_api` returns that parse unchanged, and its
`source` names candidate 2 — never candidate 1 or candidate 3.  The loop
issues a single request per candidate in list order, so no failed candidate
is retried. -/
theorem c5_failover_order (net : String → HttpResult ExchangeApiData)
    (base target today : String) (d : ExchangeApiData) (q : QuoteResult)
    (h1 : net "Frankfurter" = .timeout)
    (h2 : net "ExchangeRate-API" = .success d)
    (h3 : parse_exchange_rate_response d "exchangerate" base target "ExchangeRate-API" today = some q)
    (h4 : 0 < q.rate) :
    extract_exchange_rate_api net today base target = .ok q ∧
    q.source = "ExchangeRate-API" ∧
    q.source ≠ "Frankfurter" ∧ q.source ≠ "Fixer.io (Fallback)" := by
  have hsrc := parse_exchangerate_source h3
  refine ⟨?_, hsrc, by rw [hsrc]; decide, by rw [hsrc]; decide⟩
  simp [extract_exchange_rate_api, exchangeApis, tryExchangeApis, h1, h2, h3, if_pos h4]

/-- Witness for C5: candidate 1 times out, candidate 2 answers `0.18`, and
the returned quote names ExchangeRate-API. -/
theorem c5_failover_order_witness :
    extract_exchange_rate_api netFailover "2024-01-05" "BRL" "USD" = .ok quoteFailover ∧
    quoteFailover.source = "ExchangeRate-API" ∧
    quoteFailover.source ≠ "Frankfurter" ∧ quoteFailover.source ≠ "Fixer.io (Fallback)" :=
  c5_failover_order netFailover "BRL" "USD" "2024-01-05"
    ⟨some [("USD", 9/50)], some "2024-01-05"⟩ quoteFailover
    rfl rfl rfl (by norm_num [quoteFailover])

/-- C6: aggregating the three-row fixture enriched at rate `0.18`, the
2024-01-01 group reports transaction count 2, quantity sum 7, and total
converted value `(2*3500 + 5*50) * 0.18 = 1305`. -/
theorem c6_aggregate_groups_by_date :
    ((aggregate_data (enrich_data dfAggregation (9/50))).find?
        (fun a => a.data_venda = "2024-01-01")).map
      (fun a => (a.numero_transacoes, a.quantidade_total, a.total_vendas_usd)) =
    some (2, 7, 1305) := by
  norm_num [aggregate_data, enrich_data, enrichRow, dfAggregation, sortStrings, insertSorted,
    dropDuplicates, dedupSeen, List.filterMap, List.find?, List.filter, categoriaValor]

/-- C7: when every candidate of a quote-provider family fails (timeout,
transport error, unparsable payload, or — for exchange rates — a
non-positive parsed rate), `extract_exchange_rate_api` and
`extract_crypto_price_api` raise the family's terminal error instead of
returning any value: no hard-coded fallback rate or price is substituted. -/
theorem c7_exhaustion_raises :
    (∀ (net : String → HttpResult ExchangeApiData) (base target today : String),
      (∀ a ∈ exchangeApis base target, exchangeCandidateFails net base target today a) →
      extract_exchange_rate_api net today base target = .error (exchangeFailMsg base target)) ∧
    (∀ (net : String → HttpResult CryptoApiData) (crypto now : String),
      (∀ a ∈ cryptoApis, cryptoCandidateFails net crypto now a) →
      extract_crypto_price_api net now crypto = .error cryptoFailMsg) :=
  ⟨fun _ _ _ _ h => tryExchangeApis_error_of_fails h,
   fun _ _ _ h => tryCryptoApis_error_of_fails h⟩

/-- Witness for C7: with every request timing out, both extraction calls
end in the terminal error. -/
theorem c7_exhaustion_raises_witness :
    extract_exchange_rate_api netAllTimeoutE "2024-01-01" "BRL" "USD" =
      .error (exchangeFailMsg "BRL" "USD") ∧
    extract_crypto_price_api netAllTimeoutC "2024-01-01" "BTC" = .error cryptoFailMsg :=
  ⟨c7_exhaustion_raises.1 netAllTimeoutE "BRL" "USD" "2024-01-01"
      (fun a _ => by simp [exchangeCandidateFails, netAllTimeoutE]),
   c7_exhaustion_raises.2 netAllTimeoutC "BTC" "2024-01-01"
      (fun a _ => by simp [cryptoCandidateFails, netAllTimeoutC])⟩

/-- C8, counterexample: for a date-bearing input that has no `Preco_Local`
column, `enrich_data` adds no `Preco_USD` column — so the claim's universal
statement over date-bearing inputs is false. -/
theorem c8_dateonly_lacks_preco_usd_cex :
    "Data_Venda" ∈ (["Data_Venda"] : List String) ∧
    "Preco_USD" ∉ enrich_columns ["Data_Venda"] := by decide

/-- C8 (amended): for every input bearing the `Data_Venda`, `Preco_Local`
and `Quantidade` columns, `enrich_data` keeps every input column and its
output additionally contains `Preco_USD`, `Valor_Total_USD`, `Ano`, `Mes`
and `Dia_Semana`. -/
theorem c8_enrich_preserves_and_adds_columns (cols : List String)
    (hd : "Data_Venda" ∈ cols) (hp : "Preco_Local" ∈ cols) (hq : "Quantidade" ∈ cols) :
    (∀ c ∈ cols, c ∈ enrich_columns cols) ∧
    "Preco_USD" ∈ enrich_columns cols ∧ "Valor_Total_USD" ∈ enrich_columns cols ∧
    "Ano" ∈ enrich_columns cols ∧ "Mes" ∈ enrich_columns cols ∧
    "Dia_Semana" ∈ enrich_columns cols := by
  have h1 : "Preco_USD" ∈ enrichStagePreco (enrichStageTaxa cols) := by
    unfold enrichStagePreco
    rw [if_pos (mem_enrichStageTaxa_of_mem hp)]
    exact mem_addColumn_self _ _
  have h2 : "Valor_Total_USD" ∈
      enrichStageValorTotal (enrichStagePreco (enrichStageTaxa cols)) := by
    unfold enrichStageValorTotal
    rw [if_pos ⟨mem_enrichStagePreco_of_mem (mem_enrichStageTaxa_of_mem hq), h1⟩]
    exact mem_addColumn_self _ _
  have hd3 : "Data_Venda" ∈
      enrichStageValorTotal (enrichStagePreco (enrichStageTaxa cols)) :=
    mem_enrichStageValorTotal_of_mem (mem_enrichStagePreco_of_mem
      (mem_enrichStageTaxa_of_mem hd))
  have hAno : "Ano" ∈ enrichStageCalendar
      (enrichStageValorTotal (enrichStagePreco (enrichStageTaxa cols))) := by
    unfold enrichStageCalendar
    rw [if_pos hd3]
    exact mem_addColumn_of_mem (mem_addColumn_of_mem
      (mem_addColumn_of_mem (mem_addColumn_self _ _)))
  have hMes : "Mes" ∈ enrichStageCalendar
      (enrichStageValorTotal (enrichStagePreco (enrichStageTaxa cols))) := by
    unfold enrichStageCalendar
    rw [if_pos hd3]
    exact mem_addColumn_of_mem (mem_addColumn_of_mem (mem_addColumn_self _ _))
  have hDia : "Dia_Semana" ∈ enrichStageCalendar
      (enrichStageValorTotal (enrichStagePreco (enrichStageTaxa cols))) := by
    unfold enrichStageCalendar
    rw [if_pos hd3]
    exact mem_addColumn_of_mem (mem_addColumn_self _ _)
  refine ⟨fun c hc => mem_enrich_columns_of_mem hc, ?_, ?_, ?_, ?_, ?_⟩
  · exact mem_addColumn_of_mem (mem_enrichStageCategoria_of_mem
      (mem_enrichStageCalendar_of_mem (mem_enrichStageValorTotal_of_mem h1)))
  · exact mem_addColumn_of_mem (mem_enrichStageCategoria_of_mem
      (mem_enrichStageCalendar_of_mem h2))
  · exact mem_addColumn_of_mem (mem_enrichStageCategoria_of_mem hAno)
  · exact mem_addColumn_of_mem (mem_enrichStageCategoria_of_mem hMes)
  · exact mem_addColumn_of_mem (mem_enrichStageCategoria_of_mem hDia)

/-- Witness for C8 (amended), at the canonical sales schema. -/
theorem c8_enrich_preserves_and_adds_columns_witness :
    "Preco_USD" ∈ enrich_columns canonicalCols ∧
    "Valor_Total_USD" ∈ enrich_columns canonicalCols ∧
    "Ano" ∈ enrich_columns canonicalCols ∧ "Mes" ∈ enrich_columns canonicalCols ∧
    "Dia_Semana" ∈ enrich_columns canonicalCols :=
  (c8_enrich_preserves_and_adds_columns canonicalCols
    (by decide) (by decide) (by decide)).2

/-- C9: every quote returned by `extract_exchange_rate_api` has a strictly
positive rate: a candidate parsing to a rate ≤ 0 — including the `0` default
substituted when the target currency is absent from the provider payload —
fails the loop's acceptance check and the next candidate is tried. -/
theorem c9_returned_rate_positive (net : String → HttpResult ExchangeApiData)
    (today base target : String) (q : QuoteResult)
    (h : extract_exchange_rate_api net today base target = .ok q) : 0 < q.rate :=
  tryExchangeApis_ok_rate_pos h

/-- Witness for C9, at a provider answering `0.18`. -/
theorem c9_returned_rate_positive_witness :
    extract_exchange_rate_api netGood "2024-01-01" "BRL" "USD" = .ok netGoodQuote ∧
    0 < netGoodQuote.rate := by
  have h : extract_exchange_rate_api netGood "2024-01-01" "BRL" "USD" = .ok netGoodQuote := by
    norm_num [extract_exchange_rate_api, exchangeApis, tryExchangeApis, netGood,
      parse_exchange_rate_response, List.lookup, netGoodQuote]
  exact ⟨h, c9_returned_rate_positive netGood "2024-01-01" "BRL" "USD" netGoodQuote h⟩

/-- C10: `enrich_data`'s value tiers use left-open, right-closed intervals
over the break points 0, 50, 200, 500: a converted total value strictly above
500 is labelled `Premium`, while a total of exactly 0 — e.g. from a
quantity-0 row — falls outside every bin and gets a null label. -/
theorem c10_value_tier_boundaries :
    (∀ v : ℚ, 500 < v → categoriaValor v = some "Premium") ∧
    categoriaValor 0 = none ∧
    (∀ (rate p : ℚ) (r : Row), r.quantidade = some 0 → r.preco_local = some p →
      (enrichRow rate r).categoria_valor = none) := by
  refine ⟨?_, ?_, ?_⟩
  · intro v hv
    unfold categoriaValor
    rw [if_neg (by rintro ⟨-, h⟩; linarith), if_neg (by rintro ⟨-, h⟩; linarith),
      if_neg (by rintro ⟨-, h⟩; linarith), if_pos hv]
  · norm_num [categoriaValor]
  · intro rate p r hq hp
    simp [enrichRow, hq, hp]
    norm_num [categoriaValor]

/-- Witness for C10: value 600 is `Premium`; a quantity-0 row gets a null
tier. -/
theorem c10_value_tier_boundaries_witness :
    categoriaValor 600 = some "Premium" ∧
    (enrichRow (9/50) rowZeroQty).categoria_valor = none :=
  ⟨c10_value_tier_boundaries.1 600 (by norm_num),
   c10_value_tier_boundaries.2.2 (9/50) 25 rowZeroQty rfl rfl⟩
